import Mathlib

/-!
Shallow embedding of `internal/service/ec2/vpc_peering_connection.go`
(the `aws_vpc_peering_connection` Terraform resource).

Go pointer fields of AWS SDK types are modelled as `Option`; `aws.StringValue`
dereferences with `""` for nil. Remote API calls are modelled as oracle inputs
(the value the call would have returned), and each handler returns a record of
the calls it performed together with its error result, so that control flow is
observable.
-/

/-- `aws.StringValue`: dereference a `*string`, yielding `""` for nil. -/
def awsStringValue : Option String → String
  | some s => s
  | none => ""

/-- Whether the pattern list is an initial segment of the second list. -/
def charListStarts : List Char → List Char → Bool
  | [], _ => true
  | _ :: _, [] => false
  | a :: as, b :: bs => a == b && charListStarts as bs

/-- Whether the haystack contains the pattern as a contiguous sublist. -/
def charListHasSub (pat : List Char) : List Char → Bool
  | [] => charListStarts pat []
  | c :: t => charListStarts pat (c :: t) || charListHasSub pat t

/-- `strings.Contains s pat`. -/
def strContains (s pat : String) : Bool :=
  charListHasSub pat.toList s.toList

/-- A Go AWS error value: a code and a message. -/
structure AwsError where
  code : String
  message : String
deriving DecidableEq, Repr

/-- `tfawserr.ErrCodeEquals`: false on a nil error. -/
def errCodeEquals (err : Option AwsError) (code : String) : Bool :=
  match err with
  | none => false
  | some e => e.code == code

/-- `tfawserr.ErrMessageContains`: code equality plus message substring; false on nil. -/
def errMessageContains (err : Option AwsError) (code msg : String) : Bool :=
  match err with
  | none => false
  | some e => e.code == code && strContains e.message msg

/-- AWS SDK constant `ec2.VpcPeeringConnectionStateReasonCodeActive`. -/
def VpcPeeringConnectionStateReasonCodeActive : String := "active"

/-- AWS SDK constant `ec2.VpcPeeringConnectionStateReasonCodeDeleted`. -/
def VpcPeeringConnectionStateReasonCodeDeleted : String := "deleted"

/-- AWS SDK constant `ec2.VpcPeeringConnectionStateReasonCodeDeleting`. -/
def VpcPeeringConnectionStateReasonCodeDeleting : String := "deleting"

/-- AWS SDK constant `ec2.VpcPeeringConnectionStateReasonCodeFailed`. -/
def VpcPeeringConnectionStateReasonCodeFailed : String := "failed"

/-- AWS SDK constant `ec2.VpcPeeringConnectionStateReasonCodeInitiatingRequest`. -/
def VpcPeeringConnectionStateReasonCodeInitiatingRequest : String := "initiating-request"

/-- AWS SDK constant `ec2.VpcPeeringConnectionStateReasonCodePendingAcceptance`. -/
def VpcPeeringConnectionStateReasonCodePendingAcceptance : String := "pending-acceptance"

/-- AWS SDK constant `ec2.VpcPeeringConnectionStateReasonCodeProvisioning`. -/
def VpcPeeringConnectionStateReasonCodeProvisioning : String := "provisioning"

/-- Modelled from the spec: the constant `ErrCodeInvalidVpcPeeringConnectionIDNotFound`
is declared in the repository outside src/ (an errors file); the spec and the literal
at the refresh poller pin its value to the AWS error code string. -/
def ErrCodeInvalidVpcPeeringConnectionIDNotFound : String :=
  "InvalidVpcPeeringConnectionID.NotFound"

/-- `ec2.VpcPeeringConnectionStateReason`: status code and message, both `*string`. -/
structure VpcPeeringConnectionStateReason where
  code : Option String
  message : Option String
deriving DecidableEq, Repr

/-- The per-side `ec2.VpcPeeringConnectionVpcInfo` fields the resource reads. -/
structure VpcPeeringConnectionVpcInfo where
  ownerId : Option String
  vpcId : Option String
  region : Option String
deriving DecidableEq, Repr

/-- The `ec2.VpcPeeringConnection` fields the resource reads. -/
structure VpcPeeringConnection where
  status : Option VpcPeeringConnectionStateReason
  accepterVpcInfo : VpcPeeringConnectionVpcInfo
  requesterVpcInfo : VpcPeeringConnectionVpcInfo
deriving DecidableEq, Repr

/-- `ec2.DescribeVpcPeeringConnectionsOutput`: a possibly-nil slice of
possibly-nil connection pointers. -/
structure DescribeVpcPeeringConnectionsOutput where
  vpcPeeringConnections : Option (List (Option VpcPeeringConnection))
deriving DecidableEq, Repr

/-- The error component of a `resource.StateRefreshFunc` result: either a
passed-through API error (line 334) or the synthesized failed-state error
(line 355). -/
inductive RefreshErr where
  | apiError (e : AwsError)
  | failedState (msg : String)
deriving DecidableEq, Repr

/-- The message carried by a refresh error (what `%s` formatting prints). -/
def errString : RefreshErr → String
  | .apiError e => e.message
  | .failedState msg => msg

/-- The object-status-error triple a `resource.StateRefreshFunc` returns. -/
structure RefreshResult where
  obj : Option VpcPeeringConnection
  status : String
  err : Option RefreshErr
deriving DecidableEq, Repr

/-- `vpcPeeringConnectionRefreshState` (lines 324-360): one poll of
`DescribeVpcPeeringConnections`, whose outcome is the `describe` argument. -/
def vpcPeeringConnectionRefreshState
    (describe : Except AwsError (Option DescribeVpcPeeringConnectionsOutput)) :
    RefreshResult :=
  match describe with
  | .error err =>
    if errMessageContains (some err) "InvalidVpcPeeringConnectionID.NotFound" "" = true then
      ⟨none, VpcPeeringConnectionStateReasonCodeDeleted, none⟩
    else
      ⟨none, "", some (.apiError err)⟩
  | .ok resp =>
    match resp with
    | none => ⟨none, "", none⟩
    | some r =>
      match r.vpcPeeringConnections with
      | none => ⟨none, "", none⟩
      | some [] => ⟨none, "", none⟩
      | some (none :: _) => ⟨none, "", none⟩
      | some (some pc :: _) =>
        match pc.status with
        | none => ⟨none, "", none⟩
        | some st =>
          let statusCode := awsStringValue st.code
          if statusCode = VpcPeeringConnectionStateReasonCodeFailed then
            ⟨none, statusCode, some (.failedState (awsStringValue st.message))⟩
          else
            ⟨some pc, statusCode, none⟩

/-- The pending/target configuration of a `resource.StateChangeConf`. -/
structure StateChangeConf where
  pending : List String
  target : List String
deriving DecidableEq, Repr

/-- Model of the plugin SDK polling loop `resource.StateChangeConf.WaitForState`:
each list element is the outcome of one describe poll fed to the refresh
function; a refresh error aborts, a target status succeeds, a nil object or a
pending status polls again, any other status aborts, and poll exhaustion is the
timeout. -/
def waitForState (conf : StateChangeConf)
    (refresh : Except AwsError (Option DescribeVpcPeeringConnectionsOutput) → RefreshResult) :
    List (Except AwsError (Option DescribeVpcPeeringConnectionsOutput)) →
    Except String (Option VpcPeeringConnection)
  | [] => .error "timeout while waiting for state"
  | p :: ps =>
    let r := refresh p
    match r.err with
    | some e => .error (errString e)
    | none =>
      match r.obj with
      | none => waitForState conf refresh ps
      | some pc =>
        if conf.target.contains r.status = true then .ok (some pc)
        else if conf.pending.contains r.status = true then waitForState conf refresh ps
        else .error ("unexpected state " ++ r.status)

/-- The `resource.StateChangeConf` built by `vpcPeeringConnectionWaitUntilAvailable`
(lines 365-376). -/
def vpcPeeringConnectionWaitUntilAvailableConf : StateChangeConf :=
  { pending := [VpcPeeringConnectionStateReasonCodeInitiatingRequest,
                VpcPeeringConnectionStateReasonCodeProvisioning],
    target := [VpcPeeringConnectionStateReasonCodePendingAcceptance,
               VpcPeeringConnectionStateReasonCodeActive] }

/-- `vpcPeeringConnectionWaitUntilAvailable` (lines 362-381): run the state
poller under the pending/target sets above and wrap any failure. -/
def vpcPeeringConnectionWaitUntilAvailable (id : String)
    (polls : List (Except AwsError (Option DescribeVpcPeeringConnectionsOutput))) :
    Option String :=
  match waitForState vpcPeeringConnectionWaitUntilAvailableConf
      vpcPeeringConnectionRefreshState polls with
  | .error e =>
    some ("Error waiting for VPC Peering Connection (" ++ id ++ ") to become available: " ++ e)
  | .ok _ => none

/-- Modelled from the spec: `WaitVPCPeeringConnectionActive` (the create-active
waiter invoked at line 135) is declared in the repository outside src/; per the
spec the single status poller backs it, parameterized with create-active
pending/target sets. -/
def WaitVPCPeeringConnectionActiveConf : StateChangeConf :=
  { pending := [VpcPeeringConnectionStateReasonCodeInitiatingRequest,
                VpcPeeringConnectionStateReasonCodePendingAcceptance,
                VpcPeeringConnectionStateReasonCodeProvisioning],
    target := [VpcPeeringConnectionStateReasonCodeActive] }

/-- Modelled from the spec: the create-active waiter, i.e. the status poller
run under `WaitVPCPeeringConnectionActiveConf`. -/
def WaitVPCPeeringConnectionActive
    (polls : List (Except AwsError (Option DescribeVpcPeeringConnectionsOutput))) :
    Except String (Option VpcPeeringConnection) :=
  waitForState WaitVPCPeeringConnectionActiveConf vpcPeeringConnectionRefreshState polls

/-- Modelled from the spec: `WaitVPCPeeringConnectionDeleted` (the delete-gone
waiter invoked at line 289) is declared in the repository outside src/; per the
spec the single status poller backs it, parameterized with delete-gone
pending/target sets. -/
def WaitVPCPeeringConnectionDeletedConf : StateChangeConf :=
  { pending := [VpcPeeringConnectionStateReasonCodeActive,
                VpcPeeringConnectionStateReasonCodePendingAcceptance,
                VpcPeeringConnectionStateReasonCodeDeleting],
    target := [VpcPeeringConnectionStateReasonCodeDeleted] }

/-- Modelled from the spec: the delete-gone waiter, i.e. the status poller run
under `WaitVPCPeeringConnectionDeletedConf`. -/
def WaitVPCPeeringConnectionDeleted
    (polls : List (Except AwsError (Option DescribeVpcPeeringConnectionsOutput))) :
    Except String (Option VpcPeeringConnection) :=
  waitForState WaitVPCPeeringConnectionDeletedConf vpcPeeringConnectionRefreshState polls

/-- The oracle inputs of one run of `resourceVPCPeeringConnectionUpdate`: the
relevant Terraform state predicates and the outcome each remote call would
have. -/
structure UpdateEnv where
  hasChangeTagsAll : Bool
  isNewResource : Bool
  updateTagsErr : Option AwsError
  describeResult : Except AwsError (Option DescribeVpcPeeringConnectionsOutput)
  autoAccept : Bool
  acceptResult : Except AwsError String
  waitPolls : List (Except AwsError (Option DescribeVpcPeeringConnectionsOutput))
  hasChangeAccepter : Bool
  hasChangeRequester : Bool
  modifyErr : Option AwsError
  readErr : Option String

/-- Observable outcome of one run of `resourceVPCPeeringConnectionUpdate`:
which remote calls happened, whether the ID was cleared, and the error. -/
structure UpdateResult where
  acceptCalled : Bool := false
  waitCalled : Bool := false
  modifyCalled : Bool := false
  idCleared : Bool := false
  readCalled : Bool := false
  err : Option String := none
deriving DecidableEq, Repr

/-- Lines 239-263 of `resourceVPCPeeringConnectionUpdate`: the peering-option
modify stage, entered with the possibly post-accept status code. The body of
the modify request (options and the cross-region flag, lines 241-252) only
shapes the API payload and is abstracted into the `modifyErr` oracle. -/
def updateModifyStage (id : String) (env : UpdateEnv) (statusCode : String)
    (ac wc : Bool) : UpdateResult :=
  if env.hasChangeAccepter = true ∨ env.hasChangeRequester = true then
    if statusCode = VpcPeeringConnectionStateReasonCodeActive
        ∨ statusCode = VpcPeeringConnectionStateReasonCodeProvisioning then
      match env.modifyErr with
      | some e =>
        { acceptCalled := ac, waitCalled := wc, modifyCalled := true,
          err := some ("error modifying VPC Peering Connection (" ++ id
            ++ ") Options: " ++ e.message) }
      | none =>
        { acceptCalled := ac, waitCalled := wc, modifyCalled := true,
          readCalled := true, err := env.readErr }
    else
      { acceptCalled := ac, waitCalled := wc,
        err := some ("Unable to modify peering options. The VPC Peering Connection \""
          ++ id ++ "\" is not active. Please set `auto_accept` attribute to `true`, "
          ++ "or activate VPC Peering Connection manually.") }
  else
    { acceptCalled := ac, waitCalled := wc, readCalled := true, err := env.readErr }

/-- Lines 226-237 of `resourceVPCPeeringConnectionUpdate`: the auto-accept
stage, entered with the freshly refreshed status code. -/
def updateAcceptStage (id : String) (env : UpdateEnv) (statusCode : String) :
    UpdateResult :=
  if env.autoAccept = true ∧ statusCode = VpcPeeringConnectionStateReasonCodePendingAcceptance then
    match env.acceptResult with
    | .error e =>
      { acceptCalled := true,
        err := some ("Unable to accept VPC Peering Connection: " ++ e.message) }
    | .ok newStatus =>
      match vpcPeeringConnectionWaitUntilAvailable id env.waitPolls with
      | some werr =>
        { acceptCalled := true, waitCalled := true,
          err := some ("Error waiting for VPC Peering Connection to become available: "
            ++ werr) }
      | none => updateModifyStage id env newStatus true true
  else
    updateModifyStage id env statusCode false false

/-- Lines 215-224 of `resourceVPCPeeringConnectionUpdate`: refresh the remote
state, surface a refresh error, and clear the ID when the connection is gone. -/
def updateRefreshStage (id : String) (env : UpdateEnv) : UpdateResult :=
  let r := vpcPeeringConnectionRefreshState env.describeResult
  match r.err with
  | some e => { err := some ("Error reading VPC Peering Connection: " ++ errString e) }
  | none =>
    match r.obj with
    | none => { idCleared := true }
    | some _ => updateAcceptStage id env r.status

/-- `resourceVPCPeeringConnectionUpdate` (lines 204-266): tags first, then the
refresh, auto-accept and modify stages, then the delegated read. -/
def resourceVPCPeeringConnectionUpdate (id : String) (env : UpdateEnv) : UpdateResult :=
  if env.hasChangeTagsAll = true ∧ env.isNewResource = false then
    match env.updateTagsErr with
    | some e =>
      { err := some ("error updating EC2 VPC Peering Connection (" ++ id
          ++ ") tags: " ++ e.message) }
    | none => updateRefreshStage id env
  else updateRefreshStage id env

/-- Observable outcome of `resourceVPCPeeringConnectionDelete`: whether the
deleted-state wait happened and the error. -/
structure DeleteResult where
  waitCalled : Bool := false
  err : Option String := none
deriving DecidableEq, Repr

/-- `resourceVPCPeeringConnectionDelete` (lines 268-294): issue the delete,
tolerate not-found and the documented invalid-transition message, wrap any
other error, else wait for the deleted state. The wait outcome is the
`waitDeletedErr` oracle. -/
def resourceVPCPeeringConnectionDelete (id : String) (deleteErr : Option AwsError)
    (waitDeletedErr : Option String) : DeleteResult :=
  if errCodeEquals deleteErr ErrCodeInvalidVpcPeeringConnectionIDNotFound = true then
    { waitCalled := false, err := none }
  else if errMessageContains deleteErr "InvalidStateTransition" "to deleting" = true then
    { waitCalled := false, err := none }
  else
    match deleteErr with
    | some e =>
      { waitCalled := false,
        err := some ("error deleting EC2 VPC Peering Connection (" ++ id ++ "): "
          ++ e.message) }
    | none =>
      match waitDeletedErr with
      | some we =>
        { waitCalled := true,
          err := some ("error waiting for EC2 VPC Peering Connection (" ++ id
            ++ ") delete: " ++ we) }
      | none => { waitCalled := true, err := none }

/-- The three role-dependent fields the read handler stores. -/
structure ReadRoleFields where
  peerOwnerId : Option String
  peerVpcId : Option String
  vpcIdField : Option String
deriving DecidableEq, Repr

/-- Lines 162-172 of `resourceVPCPeeringConnectionRead`: the role-dependent
assignment of `peer_owner_id`, `peer_vpc_id` and `vpc_id` by account-ID
comparison. -/
def readRoleFields (accountID : String) (pc : VpcPeeringConnection) : ReadRoleFields :=
  if accountID = awsStringValue pc.accepterVpcInfo.ownerId ∧
      accountID ≠ awsStringValue pc.requesterVpcInfo.ownerId then
    { peerOwnerId := pc.requesterVpcInfo.ownerId,
      peerVpcId := pc.requesterVpcInfo.vpcId,
      vpcIdField := pc.accepterVpcInfo.vpcId }
  else
    { peerOwnerId := pc.accepterVpcInfo.ownerId,
      peerVpcId := pc.accepterVpcInfo.vpcId,
      vpcIdField := pc.requesterVpcInfo.vpcId }

/-- The oracle inputs of one run of `resourceVPCPeeringConnectionCreate`.
`peerRegion` is the raw attribute value: `d.GetOk` on a string is truthy iff
the string is nonempty, and on the bool `auto_accept` iff it is true (the
latter is read from the shared `updateEnv`). -/
structure CreateEnv where
  peerVpcId : String
  vpcId : String
  peerOwnerId : String
  peerRegion : String
  createErr : Option AwsError
  newId : String
  waitActiveErr : Option String
  updateEnv : UpdateEnv

/-- Observable outcome of one run of `resourceVPCPeeringConnectionCreate`. -/
structure CreateResult where
  createCalled : Bool := false
  update : Option UpdateResult := none
  err : Option String := none
deriving DecidableEq, Repr

/-- `resourceVPCPeeringConnectionCreate` (lines 103-140): reject a truthy
`peer_region` combined with a truthy `auto_accept`, else create, wait for the
active state, and delegate to the update handler. The request body (lines
108-116, 123) only shapes the API payload and is abstracted into the
`createErr`/`newId` oracle. -/
def resourceVPCPeeringConnectionCreate (env : CreateEnv) : CreateResult :=
  if env.peerRegion ≠ "" ∧ env.updateEnv.autoAccept = true then
    { err := some "`peer_region` cannot be set whilst `auto_accept` is `true` when creating an EC2 VPC Peering Connection" }
  else
    match env.createErr with
    | some e =>
      { createCalled := true,
        err := some ("error creating EC2 VPC Peering Connection: " ++ e.message) }
    | none =>
      match env.waitActiveErr with
      | some we =>
        { createCalled := true,
          err := some ("error waiting for EC2 VPC Peering Connection (" ++ env.newId
            ++ ") create: " ++ we) }
      | none =>
        { createCalled := true,
          update := some (resourceVPCPeeringConnectionUpdate env.newId env.updateEnv),
          err := (resourceVPCPeeringConnectionUpdate env.newId env.updateEnv).err }

/-- A concrete pending-acceptance connection used by witnesses. -/
def pcPending : VpcPeeringConnection :=
  ⟨some ⟨some "pending-acceptance", none⟩,
   ⟨some "111111111111", some "vpc-aaaa", some "us-east-1"⟩,
   ⟨some "222222222222", some "vpc-bbbb", some "us-east-1"⟩⟩

/-- A concrete update environment used by witnesses: pending-acceptance
connection, auto-accept requested, accepter options changed. -/
def updateEnvA : UpdateEnv :=
  { hasChangeTagsAll := false, isNewResource := true, updateTagsErr := none,
    describeResult := .ok (some ⟨some [some pcPending]⟩),
    autoAccept := true, acceptResult := .ok "provisioning",
    waitPolls := [], hasChangeAccepter := true, hasChangeRequester := false,
    modifyErr := none, readErr := none }

/-- A concrete update environment used by witnesses: the describe response is
nil, so the refresh reports the connection gone. -/
def updateEnvGone : UpdateEnv :=
  { hasChangeTagsAll := true, isNewResource := false, updateTagsErr := none,
    describeResult := .ok none,
    autoAccept := true, acceptResult := .ok "active",
    waitPolls := [], hasChangeAccepter := true, hasChangeRequester := true,
    modifyErr := none, readErr := none }

/-- A concrete create environment used by witnesses: both `peer_region` and
`auto_accept` truthy. -/
def createEnvA : CreateEnv :=
  { peerVpcId := "vpc-bbbb", vpcId := "vpc-aaaa", peerOwnerId := "",
    peerRegion := "us-west-2", createErr := none, newId := "pcx-9",
    waitActiveErr := none, updateEnv := updateEnvA }

theorem charListHasSub_nil (l : List Char) : charListHasSub [] l = true := by
  cases l <;> simp [charListHasSub, charListStarts]

theorem strContains_empty (s : String) : strContains s "" = true := by
  simp [strContains, charListHasSub_nil]

theorem updateModifyStage_calls (id : String) (env : UpdateEnv) (s : String) (ac wc : Bool) :
    (updateModifyStage id env s ac wc).acceptCalled = ac ∧
    (updateModifyStage id env s ac wc).waitCalled = wc := by
  unfold updateModifyStage
  split
  · split
    · cases env.modifyErr <;> exact ⟨rfl, rfl⟩
    · exact ⟨rfl, rfl⟩
  · exact ⟨rfl, rfl⟩

theorem updateAcceptStage_acceptCalled (id : String) (env : UpdateEnv) (st : String) :
    (updateAcceptStage id env st).acceptCalled = true ↔
      (env.autoAccept = true ∧ st = VpcPeeringConnectionStateReasonCodePendingAcceptance) := by
  unfold updateAcceptStage
  split
  next h =>
    refine ⟨fun _ => h, fun _ => ?_⟩
    cases hacc : env.acceptResult with
    | error e => rfl
    | ok s =>
      cases hw : vpcPeeringConnectionWaitUntilAvailable id env.waitPolls with
      | none => exact (updateModifyStage_calls id env s true true).1
      | some werr => rfl
  next h =>
    rw [(updateModifyStage_calls id env st false false).1]
    simp only [Bool.false_eq_true, false_iff]
    exact h

/-- Claim C1: in the update handler the Accept call happens exactly when
`auto_accept` is set and the refreshed status is pending-acceptance; a
successful Accept is followed by the wait whose pending set is
initiating-request/provisioning and whose target set is
pending-acceptance/active, and a wait failure is returned as an error. -/
theorem update_accept_iff_pending_acceptance (id : String) (env : UpdateEnv)
    (pc : VpcPeeringConnection) (st : String)
    (htags : env.updateTagsErr = none)
    (hrefresh : vpcPeeringConnectionRefreshState env.describeResult = ⟨some pc, st, none⟩) :
    ((resourceVPCPeeringConnectionUpdate id env).acceptCalled = true ↔
      (env.autoAccept = true ∧ st = VpcPeeringConnectionStateReasonCodePendingAcceptance)) ∧
    vpcPeeringConnectionWaitUntilAvailableConf.pending =
      [VpcPeeringConnectionStateReasonCodeInitiatingRequest,
       VpcPeeringConnectionStateReasonCodeProvisioning] ∧
    vpcPeeringConnectionWaitUntilAvailableConf.target =
      [VpcPeeringConnectionStateReasonCodePendingAcceptance,
       VpcPeeringConnectionStateReasonCodeActive] ∧
    (env.autoAccept = true →
     st = VpcPeeringConnectionStateReasonCodePendingAcceptance →
     ∀ s, env.acceptResult = .ok s →
      (resourceVPCPeeringConnectionUpdate id env).waitCalled = true ∧
      (∀ werr, vpcPeeringConnectionWaitUntilAvailable id env.waitPolls = some werr →
        (resourceVPCPeeringConnectionUpdate id env).err =
          some ("Error waiting for VPC Peering Connection to become available: " ++ werr))) := by
  have h2 : updateRefreshStage id env = updateAcceptStage id env st := by
    simp only [updateRefreshStage, hrefresh]
  have hred : resourceVPCPeeringConnectionUpdate id env = updateAcceptStage id env st := by
    unfold resourceVPCPeeringConnectionUpdate
    rw [htags]
    split
    · exact h2
    · exact h2
  refine ⟨?_, rfl, rfl, ?_⟩
  · rw [hred]
    exact updateAcceptStage_acceptCalled id env st
  · intro haa hst s hacc
    rw [hred]
    unfold updateAcceptStage
    rw [if_pos ⟨haa, hst⟩, hacc]
    cases hw : vpcPeeringConnectionWaitUntilAvailable id env.waitPolls with
    | none =>
      refine ⟨(updateModifyStage_calls id env s true true).2, ?_⟩
      intro werr hwe
      exact Option.noConfusion hwe
    | some werr0 =>
      refine ⟨rfl, ?_⟩
      intro werr hwe
      injection hwe with h1
      rw [h1]

theorem update_accept_iff_pending_acceptance_witness :
    (resourceVPCPeeringConnectionUpdate "pcx-1" updateEnvA).acceptCalled = true :=
  (update_accept_iff_pending_acceptance "pcx-1" updateEnvA pcPending
    "pending-acceptance" rfl rfl).1.mpr ⟨rfl, rfl⟩

/-- Claim C2: when the accepter or requester option fields changed, the modify
stage calls the modify API exactly when the (possibly post-accept) status is
active or provisioning, and for every other status it returns the descriptive
error without calling the modify API. -/
theorem update_modify_only_when_active_or_provisioning (id : String) (env : UpdateEnv)
    (s : String) (ac wc : Bool)
    (hch : env.hasChangeAccepter = true ∨ env.hasChangeRequester = true) :
    ((updateModifyStage id env s ac wc).modifyCalled = true ↔
      (s = VpcPeeringConnectionStateReasonCodeActive ∨
       s = VpcPeeringConnectionStateReasonCodeProvisioning)) ∧
    (¬(s = VpcPeeringConnectionStateReasonCodeActive ∨
       s = VpcPeeringConnectionStateReasonCodeProvisioning) →
      (updateModifyStage id env s ac wc).modifyCalled = false ∧
      (updateModifyStage id env s ac wc).err =
        some ("Unable to modify peering options. The VPC Peering Connection \""
          ++ id ++ "\" is not active. Please set `auto_accept` attribute to `true`, "
          ++ "or activate VPC Peering Connection manually.")) := by
  unfold updateModifyStage
  rw [if_pos hch]
  by_cases hs : s = VpcPeeringConnectionStateReasonCodeActive ∨
      s = VpcPeeringConnectionStateReasonCodeProvisioning
  · rw [if_pos hs]
    constructor
    · cases env.modifyErr <;> simp [hs]
    · intro hns
      exact absurd hs hns
  · rw [if_neg hs]
    constructor
    · simp only [Bool.false_eq_true, false_iff]
      exact hs
    · intro _
      exact ⟨rfl, rfl⟩

theorem update_modify_only_when_active_or_provisioning_witness :
    (updateModifyStage "pcx-1" updateEnvA "expired" false false).modifyCalled = false ∧
    (updateModifyStage "pcx-1" updateEnvA "expired" false false).err =
      some ("Unable to modify peering options. The VPC Peering Connection \""
        ++ "pcx-1" ++ "\" is not active. Please set `auto_accept` attribute to `true`, "
        ++ "or activate VPC Peering Connection manually.") :=
  (update_modify_only_when_active_or_provisioning "pcx-1" updateEnvA "expired" false false
    (Or.inl rfl)).2 (by decide)

/-- Claim C3: the delete handler succeeds on a not-found error code and on an
InvalidStateTransition error whose message contains "to deleting", wraps and
surfaces every other delete error, and after a successful delete call waits
for the deleted state (surfacing a wait failure). -/
theorem delete_tolerates_not_found_and_invalid_transition (id : String) (w : Option String) :
    (∀ e : AwsError, e.code = "InvalidVpcPeeringConnectionID.NotFound" →
      resourceVPCPeeringConnectionDelete id (some e) w = { waitCalled := false, err := none }) ∧
    (∀ e : AwsError, e.code = "InvalidStateTransition" →
      strContains e.message "to deleting" = true →
      resourceVPCPeeringConnectionDelete id (some e) w = { waitCalled := false, err := none }) ∧
    (∀ e : AwsError, e.code ≠ "InvalidVpcPeeringConnectionID.NotFound" →
      ¬(e.code = "InvalidStateTransition" ∧ strContains e.message "to deleting" = true) →
      resourceVPCPeeringConnectionDelete id (some e) w =
        { waitCalled := false,
          err := some ("error deleting EC2 VPC Peering Connection (" ++ id ++ "): "
            ++ e.message) }) ∧
    (resourceVPCPeeringConnectionDelete id none none = { waitCalled := true, err := none }) ∧
    (∀ we, resourceVPCPeeringConnectionDelete id none (some we) =
      { waitCalled := true,
        err := some ("error waiting for EC2 VPC Peering Connection (" ++ id
          ++ ") delete: " ++ we) }) := by
  refine ⟨?_, ?_, ?_, rfl, fun we => rfl⟩
  · intro e he
    have h1 : errCodeEquals (some e) ErrCodeInvalidVpcPeeringConnectionIDNotFound = true := by
      show (e.code == "InvalidVpcPeeringConnectionID.NotFound") = true
      rw [he]
      decide
    simp [resourceVPCPeeringConnectionDelete, h1]
  · intro e he hm
    have h1 : errCodeEquals (some e) ErrCodeInvalidVpcPeeringConnectionIDNotFound = false := by
      show (e.code == "InvalidVpcPeeringConnectionID.NotFound") = false
      rw [he]
      decide
    have h2 : errMessageContains (some e) "InvalidStateTransition" "to deleting" = true := by
      show (e.code == "InvalidStateTransition" && strContains e.message "to deleting") = true
      rw [he, hm]
      decide
    simp [resourceVPCPeeringConnectionDelete, h1, h2]
  · intro e hne hni
    have h1 : errCodeEquals (some e) ErrCodeInvalidVpcPeeringConnectionIDNotFound = false := by
      show (e.code == "InvalidVpcPeeringConnectionID.NotFound") = false
      simp [ErrCodeInvalidVpcPeeringConnectionIDNotFound] at hne
      simp [hne]
    have h2 : errMessageContains (some e) "InvalidStateTransition" "to deleting" = false := by
      show (e.code == "InvalidStateTransition" && strContains e.message "to deleting") = false
      by_cases hc : e.code = "InvalidStateTransition"
      · have hsc : strContains e.message "to deleting" = false := by
          cases hsc0 : strContains e.message "to deleting"
          · rfl
          · exact absurd ⟨hc, hsc0⟩ hni
        rw [hsc]
        simp
      · simp [hc]
    simp [resourceVPCPeeringConnectionDelete, h1, h2]

theorem delete_tolerates_not_found_and_invalid_transition_witness :
    resourceVPCPeeringConnectionDelete "pcx-3"
        (some ⟨"InvalidStateTransition",
          "Invalid state transition for pcx-3, attempted to transition from failed to deleting"⟩)
        none
      = { waitCalled := false, err := none } :=
  (delete_tolerates_not_found_and_invalid_transition "pcx-3" none).2.1
    ⟨"InvalidStateTransition",
      "Invalid state transition for pcx-3, attempted to transition from failed to deleting"⟩
    rfl (by decide)

/-- Claim C4: a `DescribeVpcPeeringConnections` failure whose error code is
`InvalidVpcPeeringConnectionID.NotFound` makes the status poller return a nil
object, the status string `deleted`, and no error. -/
theorem refresh_not_found_maps_to_deleted (e : AwsError)
    (h : e.code = "InvalidVpcPeeringConnectionID.NotFound") :
    vpcPeeringConnectionRefreshState (.error e) = ⟨none, "deleted", none⟩ := by
  simp [vpcPeeringConnectionRefreshState, errMessageContains, h, strContains_empty,
    VpcPeeringConnectionStateReasonCodeDeleted]

theorem refresh_not_found_maps_to_deleted_witness :
    vpcPeeringConnectionRefreshState
        (.error ⟨"InvalidVpcPeeringConnectionID.NotFound", "does not exist"⟩)
      = ⟨none, "deleted", none⟩ :=
  refresh_not_found_maps_to_deleted ⟨"InvalidVpcPeeringConnectionID.NotFound", "does not exist"⟩ rfl

/-- Claim C5: a connection whose reported status code is `failed` makes the
status poller return a nil object, the status code `failed`, and an error whose
message is the AWS-provided `Status.Message`. -/
theorem refresh_failed_maps_to_error (pc : VpcPeeringConnection)
    (st : VpcPeeringConnectionStateReason) (rest : List (Option VpcPeeringConnection))
    (hst : pc.status = some st) (hcode : st.code = some "failed") :
    vpcPeeringConnectionRefreshState (.ok (some ⟨some (some pc :: rest)⟩))
      = ⟨none, "failed", some (.failedState (awsStringValue st.message))⟩ ∧
    errString (.failedState (awsStringValue st.message)) = awsStringValue st.message := by
  constructor
  · simp [vpcPeeringConnectionRefreshState, hst, hcode, awsStringValue,
      VpcPeeringConnectionStateReasonCodeFailed]
  · rfl

theorem refresh_failed_maps_to_error_witness :
    vpcPeeringConnectionRefreshState
        (.ok (some ⟨some (some ⟨some ⟨some "failed", some "overlapping CIDR"⟩,
          ⟨some "111", some "vpc-a", some "us-east-1"⟩,
          ⟨some "222", some "vpc-b", some "us-east-1"⟩⟩ :: [])⟩))
      = ⟨none, "failed", some (.failedState "overlapping CIDR")⟩ :=
  (refresh_failed_maps_to_error
    ⟨some ⟨some "failed", some "overlapping CIDR"⟩,
      ⟨some "111", some "vpc-a", some "us-east-1"⟩,
      ⟨some "222", some "vpc-b", some "us-east-1"⟩⟩
    ⟨some "failed", some "overlapping CIDR"⟩ [] rfl rfl).1

/-- Claim C6: on a successful describe whose response is nil, has a nil or empty
connection list, a nil first connection, or a first connection with nil status,
the status poller returns a nil object, empty status, and no error. -/
theorem refresh_empty_response_maps_to_empty_status :
    vpcPeeringConnectionRefreshState (.ok none) = ⟨none, "", none⟩ ∧
    vpcPeeringConnectionRefreshState (.ok (some ⟨none⟩)) = ⟨none, "", none⟩ ∧
    vpcPeeringConnectionRefreshState (.ok (some ⟨some []⟩)) = ⟨none, "", none⟩ ∧
    (∀ rest : List (Option VpcPeeringConnection),
      vpcPeeringConnectionRefreshState (.ok (some ⟨some (none :: rest)⟩)) = ⟨none, "", none⟩) ∧
    (∀ (pc : VpcPeeringConnection) (rest : List (Option VpcPeeringConnection)),
      pc.status = none →
      vpcPeeringConnectionRefreshState (.ok (some ⟨some (some pc :: rest)⟩)) = ⟨none, "", none⟩) := by
  refine ⟨rfl, rfl, rfl, fun rest => rfl, fun pc rest hst => ?_⟩
  simp [vpcPeeringConnectionRefreshState, hst]

theorem refresh_empty_response_maps_to_empty_status_witness :
    vpcPeeringConnectionRefreshState
        (.ok (some ⟨some (some ⟨none,
          ⟨some "111", some "vpc-a", some "us-east-1"⟩,
          ⟨some "222", some "vpc-b", some "us-east-1"⟩⟩ :: [])⟩))
      = ⟨none, "", none⟩ :=
  refresh_empty_response_maps_to_empty_status.2.2.2.2
    ⟨none, ⟨some "111", some "vpc-a", some "us-east-1"⟩,
      ⟨some "222", some "vpc-b", some "us-east-1"⟩⟩ [] rfl

/-- Claim C7: the read handler determines the local role solely by account-ID
comparison: when the caller owns the accepter side and not the requester side
it stores the requester owner/VPC as the peer fields and the accepter VPC as
`vpc_id`; in every other case, including when both owner IDs equal the caller,
it stores the accepter owner/VPC as the peer fields and the requester VPC as
`vpc_id`. -/
theorem read_role_fields_by_account_comparison (accountID : String)
    (pc : VpcPeeringConnection) :
    (accountID = awsStringValue pc.accepterVpcInfo.ownerId ∧
       accountID ≠ awsStringValue pc.requesterVpcInfo.ownerId →
      readRoleFields accountID pc =
        { peerOwnerId := pc.requesterVpcInfo.ownerId,
          peerVpcId := pc.requesterVpcInfo.vpcId,
          vpcIdField := pc.accepterVpcInfo.vpcId }) ∧
    (¬(accountID = awsStringValue pc.accepterVpcInfo.ownerId ∧
       accountID ≠ awsStringValue pc.requesterVpcInfo.ownerId) →
      readRoleFields accountID pc =
        { peerOwnerId := pc.accepterVpcInfo.ownerId,
          peerVpcId := pc.accepterVpcInfo.vpcId,
          vpcIdField := pc.requesterVpcInfo.vpcId }) ∧
    (accountID = awsStringValue pc.accepterVpcInfo.ownerId →
     accountID = awsStringValue pc.requesterVpcInfo.ownerId →
      readRoleFields accountID pc =
        { peerOwnerId := pc.accepterVpcInfo.ownerId,
          peerVpcId := pc.accepterVpcInfo.vpcId,
          vpcIdField := pc.requesterVpcInfo.vpcId }) := by
  refine ⟨?_, ?_, ?_⟩
  · intro h
    unfold readRoleFields
    rw [if_pos h]
  · intro h
    unfold readRoleFields
    rw [if_neg h]
  · intro h1 h2
    unfold readRoleFields
    rw [if_neg (fun hc => hc.2 h2)]

theorem read_role_fields_by_account_comparison_witness :
    readRoleFields "111111111111" pcPending =
      { peerOwnerId := pcPending.requesterVpcInfo.ownerId,
        peerVpcId := pcPending.requesterVpcInfo.vpcId,
        vpcIdField := pcPending.accepterVpcInfo.vpcId } :=
  (read_role_fields_by_account_comparison "111111111111" pcPending).1 ⟨rfl, by decide⟩

/-- Claim C8: one status poller backs the create-active, update-available and
delete-gone waiters, which differ only in their pending/target sets. -/
theorem single_poller_backs_all_waiters :
    (∀ polls, WaitVPCPeeringConnectionActive polls =
      waitForState WaitVPCPeeringConnectionActiveConf
        vpcPeeringConnectionRefreshState polls) ∧
    (∀ polls, WaitVPCPeeringConnectionDeleted polls =
      waitForState WaitVPCPeeringConnectionDeletedConf
        vpcPeeringConnectionRefreshState polls) ∧
    (∀ id polls, vpcPeeringConnectionWaitUntilAvailable id polls =
      (match waitForState vpcPeeringConnectionWaitUntilAvailableConf
          vpcPeeringConnectionRefreshState polls with
       | .error e => some ("Error waiting for VPC Peering Connection (" ++ id
           ++ ") to become available: " ++ e)
       | .ok _ => none)) :=
  ⟨fun _ => rfl, fun _ => rfl, fun _ _ => rfl⟩

/-- Claim C9: when both `peer_region` and `auto_accept` are truthy, the create
handler returns the fixed error without calling the create API. -/
theorem create_rejects_peer_region_with_auto_accept (env : CreateEnv)
    (hpr : env.peerRegion ≠ "") (haa : env.updateEnv.autoAccept = true) :
    resourceVPCPeeringConnectionCreate env =
      { createCalled := false, update := none,
        err := some "`peer_region` cannot be set whilst `auto_accept` is `true` when creating an EC2 VPC Peering Connection" } := by
  unfold resourceVPCPeeringConnectionCreate
  rw [if_pos ⟨hpr, haa⟩]

theorem create_rejects_peer_region_with_auto_accept_witness :
    resourceVPCPeeringConnectionCreate createEnvA =
      { createCalled := false, update := none,
        err := some "`peer_region` cannot be set whilst `auto_accept` is `true` when creating an EC2 VPC Peering Connection" } :=
  create_rejects_peer_region_with_auto_accept createEnvA (by decide) rfl

/-- Claim C10: when the refresh reports the connection gone with no error, the
update handler clears the ID and returns success, calling neither Accept nor
the modify API nor the final read. -/
theorem update_nil_refresh_clears_id (id : String) (env : UpdateEnv) (st : String)
    (htags : env.updateTagsErr = none)
    (hrefresh : vpcPeeringConnectionRefreshState env.describeResult = ⟨none, st, none⟩) :
    resourceVPCPeeringConnectionUpdate id env =
      { acceptCalled := false, waitCalled := false, modifyCalled := false,
        idCleared := true, readCalled := false, err := none } := by
  have h2 : updateRefreshStage id env = { idCleared := true } := by
    simp only [updateRefreshStage, hrefresh]
  unfold resourceVPCPeeringConnectionUpdate
  rw [htags]
  split
  · exact h2
  · exact h2

theorem update_nil_refresh_clears_id_witness :
    resourceVPCPeeringConnectionUpdate "pcx-2" updateEnvGone =
      { acceptCalled := false, waitCalled := false, modifyCalled := false,
        idCleared := true, readCalled := false, err := none } :=
  update_nil_refresh_clears_id "pcx-2" updateEnvGone "" rfl rfl
